import Mathlib

/-!
Verification of the NVDA remote-relay subsystem (source/remoteClient of the
nvda repository).  The definitions below are a shallow embedding of
source/remoteClient/server.py (RemoteCertificateManager, LocalRelayServer and
Client) and source/remoteClient/localMachine.py (LocalMachine).  Machine
integers are modelled as Int/Nat, byte strings as lists of byte values
(newline is byte 10), Python exceptions as an Except layer, and socket writes
as an emitted list of Sent records (a write that reaches the peer).  The
JSON (de)serializer lives in serializer.py, which is not among the sources
here, so it is modelled from the spec as stated on its definitions below.
-/

/-- JSON values as carried by the newline-delimited wire protocol.  Numbers
are modelled as integers, which covers every field the relay server reads or
writes. -/
inductive JVal where
  | null : JVal
  | bool : Bool → JVal
  | num : Int → JVal
  | str : String → JVal
  | arr : List JVal → JVal
  | obj : List (String × JVal) → JVal

/-- A parsed JSON message: a JSON object, i.e. an association list from field
names to values (Python dicts keep insertion order, which the list keeps). -/
abbrev Message := List (String × JVal)

/-- Field lookup in a message, Python dict membership and access. -/
def msgGet : Message → String → Option JVal
  | [], _ => none
  | p :: rest, k => if p.1 = k then some p.2 else msgGet rest k

/-- Removal of a field, used to model how keyword arguments captured by a
named parameter disappear from a Python kwargs dict. -/
def msgErase : Message → String → Message
  | [], _ => []
  | p :: rest, k => if p.1 = k then msgErase rest k else p :: msgErase rest k

/-- Python truthiness of a JSON value, as used by statements such as
if origin and if clients in Client.send. -/
def truthy : JVal → Bool
  | .null => false
  | .bool b => b
  | .num n => n ≠ 0
  | .str s => s ≠ ""
  | .arr l => ¬ l.isEmpty
  | .obj l => ¬ l.isEmpty

/-- Truthiness of an optional value; Python None is falsy. -/
def truthyOpt : Option JVal → Bool
  | none => false
  | some v => truthy v

/-- Whether a value is a JSON integer. -/
def JVal.isNum : JVal → Bool
  | .num _ => true
  | _ => false

/-- Python exceptions that the embedded code can raise. -/
inductive PyError where
  | valueError
  | typeError
  | keyError
  | attributeError
  | oSError
deriving DecidableEq, Repr

/-- Python comparison protocolVersion > 1 where the left operand is an
arbitrary stored JSON value: ints compare, bools are ints 0 and 1, and every
other type raises TypeError in Python 3. -/
def pyVersionGtOne : JVal → Except PyError Bool
  | .num n => .ok (decide (1 < n))
  | .bool _ => .ok false
  | _ => .error .typeError

/-- Python equality test of obj.get("channel") (an optional JSON value)
against the server password string: equal exactly when the value is that
string. -/
def pyEqStr (v : Option JVal) (s : String) : Bool :=
  match v with
  | some (.str a) => decide (a = s)
  | _ => false

/-- Modelled from the spec: the RemoteMessageType enum lives in protocol.py,
which is not among the sources here.  The spec (sections 4.2 and 6) names the
server control messages CHANNEL_JOINED, CLIENT_JOINED, CLIENT_LEFT, ERROR and
PING, and lists routed application types such as SET_CLIPBOARD_TEXT, KEY and
SEND_SAS. -/
inductive RemoteMessageType where
  | CHANNEL_JOINED
  | CLIENT_JOINED
  | CLIENT_LEFT
  | ERROR
  | PING
  | SET_CLIPBOARD_TEXT
  | KEY
  | SEND_SAS
deriving DecidableEq, Repr

/-- Modelled from the spec: the wire encoding of a message-type member, as
written by the serializer into the type field. -/
def RemoteMessageType.wire : RemoteMessageType → String
  | .CHANNEL_JOINED => "CHANNEL_JOINED"
  | .CLIENT_JOINED => "CLIENT_JOINED"
  | .CLIENT_LEFT => "CLIENT_LEFT"
  | .ERROR => "ERROR"
  | .PING => "PING"
  | .SET_CLIPBOARD_TEXT => "SET_CLIPBOARD_TEXT"
  | .KEY => "KEY"
  | .SEND_SAS => "SEND_SAS"

/-- Python attribute access RemoteMessageType.name: none models the
AttributeError raised when no member of that name exists. -/
def RemoteMessageType.attr? (name : String) : Option RemoteMessageType :=
  if name = "CHANNEL_JOINED" then some .CHANNEL_JOINED
  else if name = "CLIENT_JOINED" then some .CLIENT_JOINED
  else if name = "CLIENT_LEFT" then some .CLIENT_LEFT
  else if name = "ERROR" then some .ERROR
  else if name = "PING" then some .PING
  else if name = "SET_CLIPBOARD_TEXT" then some .SET_CLIPBOARD_TEXT
  else if name = "KEY" then some .KEY
  else if name = "SEND_SAS" then some .SEND_SAS
  else none

/-- Per-socket server-side client session state, the mutable attributes of
server.py Client: id, buffer, authenticated, connectionType and
protocolVersion (a stored JSON value, since do_protocol_version assigns
whatever truthy value the peer declared; it starts as the integer 1). -/
structure ClientState where
  id : Int
  buffer : List Nat
  authenticated : Bool
  connectionType : JVal
  protocolVersion : JVal

/-- Client.asDict from server.py: the per-client metadata dictionary. -/
def ClientState.asDict (c : ClientState) : JVal :=
  .obj [("id", .num c.id), ("connection_type", c.connectionType)]

/-- The LocalRelayServer state the routing code touches: the configured
channel password, the table of connected clients (server.clients, in
insertion order, held as ids) and the store of client objects themselves.
The separation of table and store models Python object identity: closing a
client deletes it from the table while the object (and further mutations to
it by code still running) lives on. -/
structure ServerState where
  password : String
  store : List ClientState
  table : List Int

/-- Lookup of the client object with a given id. -/
def ServerState.client? (S : ServerState) (i : Int) : Option ClientState :=
  S.store.find? (fun c => c.id = i)

/-- Mutation of the client object with a given id. -/
def ServerState.updateClient (S : ServerState) (i : Int) (f : ClientState → ClientState) :
    ServerState :=
  { S with store := S.store.map (fun c => if c.id = i then f c else c) }

/-- The values of server.clients, in table order. -/
def ServerState.tableClients (S : ServerState) : List ClientState :=
  S.table.filterMap S.client?

/-- A message written to one client's socket: the destination client id and
the message content as serialized onto the wire (the serializer writes the
type field first and the remaining fields after it). -/
structure Sent where
  dest : Int
  msg : Message

/-- Modelled from the spec: JSONSerializer.deserialize of serializer.py,
which is not among the sources here.  The spec fixes the wire format to one
JSON object per line carrying string-keyed fields, and classifies any line
that fails to parse as that expected message structure as a framing error
(the ValueError branch, below the none result).  The relay code is
parameterized over this deserializer. -/
abbrev Deser := List Nat → Option Message

/-- Loop condition of Client.sendToOthers: c is not self and c.authenticated. -/
def isOther (myId : Int) (c : ClientState) : Bool :=
  decide (c.id ≠ myId) && c.authenticated

/-- Client.send from server.py, for one recipient: builds the message from
the keyword arguments, and only when the recipient's protocol version
compares greater than 1 adds the truthy ones among origin, clients and
client; the comparison itself can raise if a peer declared a non-integer
version.  The serialized wire message carries the type field first. -/
def clientSend (recip : ClientState) (tyv : JVal) (origin clients client : Option JVal)
    (kwargs : Message) : Except PyError Sent :=
  match pyVersionGtOne recip.protocolVersion with
  | .error e => .error e
  | .ok gt =>
    .ok { dest := recip.id
          msg := ("type", tyv) :: (kwargs
            ++ (if gt && truthyOpt origin then [("origin", origin.getD JVal.null)] else [])
            ++ (if gt && truthyOpt clients then [("clients", clients.getD JVal.null)] else [])
            ++ (if gt && truthyOpt client then [("client", client.getD JVal.null)] else [])) }

/-- Iteration of Client.sendToOthers over server.clients.values(). -/
def sendLoop (myId : Int) (originVal tyv : JVal) (clientsArg clientArg : Option JVal)
    (kwargs : Message) : List ClientState → Except PyError (List Sent)
  | [] => .ok []
  | c :: rest =>
    if isOther myId c then
      match clientSend c tyv (some originVal) clientsArg clientArg kwargs with
      | .error e => .error e
      | .ok s =>
        match sendLoop myId originVal tyv clientsArg clientArg kwargs rest with
        | .error e => .error e
        | .ok ss => .ok (s :: ss)
    else sendLoop myId originVal tyv clientsArg clientArg kwargs rest

/-- Origin defaulting in Client.sendToOthers, the statement if origin is
None then origin = self.id: a deserialized JSON null is Python None, so both
an absent origin and a null one are replaced by the sender's id. -/
def originOrId (origin : Option JVal) (myId : Int) : JVal :=
  match origin with
  | none => JVal.num myId
  | some JVal.null => JVal.num myId
  | some v => v

/-- Client.sendToOthers from server.py: the payload is the kwargs dict of the
call; origin defaults to the sender's id when absent (or JSON null, which is
Python None), and the type, clients and client fields are captured by the
named parameters of Client.send. -/
def sendToOthers (S : ServerState) (myId : Int) (origin : Option JVal) (payload : Message) :
    Except PyError (List Sent) :=
  let originVal := originOrId origin myId
  match msgGet payload "type" with
  | none => .error .typeError
  | some tyv =>
    sendLoop myId originVal tyv (msgGet payload "clients") (msgGet payload "client")
      (msgErase (msgErase (msgErase payload "type") "clients") "client") S.tableClients

/-- Client.close plus LocalRelayServer.clientDisconnected: removes the client
from the table (Python del raises KeyError when it is already gone) and, only
when it had authenticated, broadcasts CLIENT_LEFT to the remaining
authenticated clients. -/
def closeClient (S : ServerState) (myId : Int) : Except PyError (ServerState × List Sent) :=
  if myId ∈ S.table then
    let S' := { S with table := S.table.filter (fun i => i ≠ myId) }
    match S.client? myId with
    | none => .ok (S', [])
    | some me =>
      if me.authenticated then
        match sendToOthers S' myId none
            [("type", JVal.str RemoteMessageType.CLIENT_LEFT.wire),
             ("user_id", JVal.num myId),
             ("client", me.asDict)] with
        | .error e => .error e
        | .ok sent => .ok (S', sent)
      else .ok (S', [])
  else .error .keyError

/-- Client.do_join from server.py.  On a password mismatch it sends one ERROR
message and closes; on a match it records the connection type, marks the
session authenticated, answers with CHANNEL_JOINED carrying the roster of the
other authenticated clients, and broadcasts CLIENT_JOINED. -/
def do_join (S : ServerState) (myId : Int) (obj : Message) :
    Except PyError (ServerState × List Sent) :=
  match S.client? myId with
  | none => .ok (S, [])
  | some me =>
    if pyEqStr (msgGet obj "channel") S.password = false then
      match clientSend me (JVal.str RemoteMessageType.ERROR.wire) none none none
          [("message", JVal.str "incorrect_password")] with
      | .error e => .error e
      | .ok s =>
        match closeClient S myId with
        | .error e => .error e
        | .ok (S', sent') => .ok (S', s :: sent')
    else
      let ctv := (msgGet obj "connection_type").getD JVal.null
      let S1 := S.updateClient myId (fun c => { c with connectionType := ctv, authenticated := true })
      let me1 : ClientState := { me with connectionType := ctv, authenticated := true }
      let roster := S1.tableClients.filter (isOther myId)
      match clientSend me1 (JVal.str RemoteMessageType.CHANNEL_JOINED.wire) none
          (some (JVal.arr (roster.map ClientState.asDict))) none
          [("channel", JVal.str S.password),
           ("user_ids", JVal.arr (roster.map (fun c => JVal.num c.id)))] with
      | .error e => .error e
      | .ok s1 =>
        match sendToOthers S1 myId none
            [("type", JVal.str RemoteMessageType.CLIENT_JOINED.wire),
             ("user_id", JVal.num myId),
             ("client", me1.asDict)] with
        | .error e => .error e
        | .ok s2 => .ok (S1, s1 :: s2)

/-- Client.do_protocol_version from server.py: a falsy or absent version is
ignored; otherwise the declared value is stored as is. -/
def do_protocol_version (S : ServerState) (myId : Int) (obj : Message) :
    Except PyError (ServerState × List Sent) :=
  match msgGet obj "version" with
  | none => .ok (S, [])
  | some v =>
    if truthy v then
      .ok (S.updateClient myId (fun c => { c with protocolVersion := v }), [])
    else .ok (S, [])

/-- Client.parse from server.py: deserialize the line (a failure is the
ValueError the caller catches), discard messages without a type field,
forward messages of authenticated clients to the others, and for the rest
dispatch on do_ plus the type (string concatenation with a non-string type
raises TypeError); only do_join and do_protocol_version exist as handlers. -/
def parse (d : Deser) (S : ServerState) (myId : Int) (line : List Nat) :
    Except PyError (ServerState × List Sent) :=
  match d line with
  | none => .error .valueError
  | some parsed =>
    match msgGet parsed "type" with
    | none => .ok (S, [])
    | some tv =>
      match S.client? myId with
      | none => .ok (S, [])
      | some me =>
        if me.authenticated then
          match sendToOthers S myId (msgGet parsed "origin") (msgErase parsed "origin") with
          | .error e => .error e
          | .ok sent => .ok (S, sent)
        else
          match tv with
          | .str t =>
            if t = "join" then do_join S myId parsed
            else if t = "protocol_version" then do_protocol_version S myId parsed
            else .ok (S, [])
          | _ => .error .typeError

/-- Framing of a byte stream: the complete newline-terminated lines, in
order, and the trailing bytes after the last newline.  This is what repeated
data.partition of a newline inside the while loop of Client.handleData
slices off. -/
def splitNewlines : List Nat → List (List Nat) × List Nat
  | [] => ([], [])
  | b :: rest =>
    let r := splitNewlines rest
    if b = 10 then ([] :: r.1, r.2)
    else
      match r.1 with
      | [] => ([], b :: r.2)
      | l :: ls => ((b :: l) :: ls, r.2)

/-- While loop of Client.handleData over the complete lines: each line is
parsed; a ValueError closes the connection and returns at once (the Bool
records that early return, after which the trailing data is not buffered);
any other exception propagates. -/
def processLines (d : Deser) (myId : Int) (S : ServerState) :
    List (List Nat) → List Sent → Except PyError (ServerState × List Sent × Bool)
  | [], acc => .ok (S, acc, false)
  | line :: rest, acc =>
    match parse d S myId line with
    | .error .valueError =>
      match closeClient S myId with
      | .error e => .error e
      | .ok (S', sent') => .ok (S', acc ++ sent', true)
    | .error e => .error e
    | .ok (S', sent) => processLines d myId S' rest (acc ++ sent)

/-- Result of socket.recv in Client.handleData: a chunk of bytes (the empty
chunk is the orderly-disconnect signal) or a raised exception. -/
inductive Recv where
  | data (chunk : List Nat) : Recv
  | exc : Recv

/-- Client.handleData from server.py: a failed or empty recv closes the
client; otherwise the chunk is appended to the buffer, and when no newline is
present the bytes are only buffered, else the buffer is emptied, every
complete line is processed and the trailing partial line is re-buffered
unless a parse failure already closed the connection. -/
def handleData (d : Deser) (S : ServerState) (myId : Int) (r : Recv) :
    Except PyError (ServerState × List Sent) :=
  match r with
  | .exc => closeClient S myId
  | .data chunk =>
    if chunk = [] then closeClient S myId
    else
      match S.client? myId with
      | none => .ok (S, [])
      | some me =>
        let data := me.buffer ++ chunk
        if (10 : Nat) ∈ data then
          let S1 := S.updateClient myId (fun c => { c with buffer := [] })
          let split := splitNewlines data
          match processLines d myId S1 split.1 [] with
          | .error e => .error e
          | .ok (S2, sent, earlyReturn) =>
            if earlyReturn then .ok (S2, sent)
            else .ok (S2.updateClient myId (fun c => { c with buffer := c.buffer ++ split.2 }), sent)
        else .ok (S.updateClient myId (fun c => { c with buffer := data }), [])

/-- LocalRelayServer.PING_TIME. -/
def PING_TIME : Nat := 300

/-- Ping sweep body in LocalRelayServer.run: for every authenticated client,
evaluate RemoteMessageType.PINGping (an attribute access) and send it as a
keepalive. -/
def pingLoop : List ClientState → Except PyError (List Sent)
  | [] => .ok []
  | c :: rest =>
    if c.authenticated then
      match RemoteMessageType.attr? "PINGping" with
      | none => .error .attributeError
      | some t =>
        match clientSend c (JVal.str t.wire) none none none [] with
        | .error e => .error e
        | .ok s =>
          match pingLoop rest with
          | .error e => .error e
          | .ok ss => .ok (s :: ss)
    else pingLoop rest

/-- End of one iteration of LocalRelayServer.run: when PING_TIME seconds or
more elapsed since the last sweep, ping every authenticated client and reset
the sweep timer, else do nothing. -/
def pingTick (S : ServerState) (now lastPingTime : Nat) :
    Except PyError (List Sent × Nat) :=
  if PING_TIME ≤ now - lastPingTime then
    match pingLoop S.tableClients with
    | .error e => .error e
    | .ok sent => .ok (sent, now)
  else .ok ([], lastPingTime)

/-- RemoteCertificateManager.CERT_DURATION_DAYS. -/
def CERT_DURATION_DAYS : Int := 365

/-- RemoteCertificateManager.CERT_RENEWAL_THRESHOLD_DAYS. -/
def CERT_RENEWAL_THRESHOLD_DAYS : Int := 30

/-- Contents of the certificate file as far as validation reads them: whether
the PEM data parses, and the validity window.  Time is measured in days, the
granularity at which the relay compares a certificate's remaining life
against its renewal threshold. -/
structure StoredCert where
  parseOk : Bool
  notBefore : Int
  notAfter : Int

/-- On-disk state owned by RemoteCertificateManager: the certificate file and
the key file (none is a missing file; for the key, the flag says whether
load_pem_private_key succeeds on it). -/
structure CertFiles where
  cert : Option StoredCert
  key : Option Bool

/-- RemoteCertificateManager._filesExist. -/
def filesExist (fs : CertFiles) : Bool :=
  fs.cert.isSome && fs.key.isSome

/-- RemoteCertificateManager._validateCertificate: loads the certificate
(parse failures raise), rejects a clock outside the validity window, rejects
fewer than the renewal threshold of days remaining, then loads the private
key (failures raise). -/
def validateCertificate (fs : CertFiles) (now : Int) : Except PyError Unit :=
  match fs.cert with
  | none => .error .oSError
  | some c =>
    if c.parseOk = false then .error .valueError
    else if c.notAfter ≤ now ∨ now < c.notBefore then .error .valueError
    else if c.notAfter - now ≤ CERT_RENEWAL_THRESHOLD_DAYS then .error .valueError
    else
      match fs.key with
      | none => .error .oSError
      | some readable => if readable then .ok () else .error .valueError

/-- RemoteCertificateManager._generateSelfSignedCert: writes a fresh
certificate valid from now for CERT_DURATION_DAYS days and a fresh readable
key. -/
def generateSelfSignedCert (now : Int) : CertFiles :=
  { cert := some { parseOk := true, notBefore := now, notAfter := now + CERT_DURATION_DAYS }
    key := some true }

/-- RemoteCertificateManager.ensureValidCertExists: regenerate when either
file is missing or when validation raises any exception; the exception is
swallowed, never propagated.  The Bool reports whether generation ran. -/
def ensureValidCertExists (fs : CertFiles) (now : Int) : CertFiles × Bool :=
  let shouldGenerate :=
    if filesExist fs = false then true
    else
      match validateCertificate fs now with
      | .ok _ => false
      | .error _ => true
  if shouldGenerate then (generateSelfSignedCert now, true) else (fs, false)

/-- Observable local actions LocalMachine can trigger on the host system. -/
inductive LocalEffect where
  | playWaveFile (fileName : String)
  | beepTone (hz : Int) (length : Int) (left : Int) (right : Int)
  | cancelSpeech
  | pauseSpeech (switch : Bool)
  | resetSpeechCancelled
  | speakSequence (sequence : List String) (priority : Int)
  | writeBrailleCells (cells : List Int)
  | executeBrailleGesture
  | sendKeyInput (vk : Option Int) (extended : Option Bool) (pressed : Option Bool)
  | clipboardCue
  | copyToClip (text : String)
  | sendSASCall
  | uiMessage (text : String)
deriving DecidableEq, Repr

/-- Flags of localMachine.py LocalMachine relevant to command execution. -/
structure LocalMachine where
  isMuted : Bool
  receivingBraille : Bool
  cachedSizes : Option (List Int)

/-- LocalMachine.playWave: ignored when muted or when the file is absent. -/
def LocalMachine.playWave (lm : LocalMachine) (fileName : String) (fileExists : Bool) :
    List LocalEffect :=
  if lm.isMuted then [] else if fileExists then [.playWaveFile fileName] else []

/-- LocalMachine.beep: ignored when muted. -/
def LocalMachine.beep (lm : LocalMachine) (hz length left right : Int) : List LocalEffect :=
  if lm.isMuted then [] else [.beepTone hz length left right]

/-- LocalMachine.cancelSpeech: ignored when muted. -/
def LocalMachine.cancelSpeech (lm : LocalMachine) : List LocalEffect :=
  if lm.isMuted then [] else [.cancelSpeech]

/-- LocalMachine.pauseSpeech: ignored when muted. -/
def LocalMachine.pauseSpeech (lm : LocalMachine) (switch : Bool) : List LocalEffect :=
  if lm.isMuted then [] else [.pauseSpeech switch]

/-- LocalMachine.speak: ignored when muted, else resets the cancellation flag
and queues the sequence. -/
def LocalMachine.speak (lm : LocalMachine) (sequence : List String) (priority : Int) :
    List LocalEffect :=
  if lm.isMuted then [] else [.resetSpeechCancelled, .speakSequence sequence priority]

/-- LocalMachine.display from localMachine.py: writes the pushed cells to the
local display exactly when braille is being received, the local display size
is positive and the cells fit; short pushes are padded with zero cells. -/
def LocalMachine.display (lm : LocalMachine) (displaySize : Int) (cells : List Int) :
    Option (List Int) :=
  if lm.receivingBraille ∧ 0 < displaySize ∧ (cells.length : Int) ≤ displaySize then
    some (cells ++ List.replicate (displaySize - (cells.length : Int)).toNat 0)
  else none

/-- LocalMachine.brailleInput: executes the gesture, muted or not. -/
def LocalMachine.brailleInput (_lm : LocalMachine) : List LocalEffect :=
  [.executeBrailleGesture]

/-- LocalMachine.handleFilterDisplaySize: the smallest positive size among
the cached remote sizes and the local one, defaulting to the local size. -/
def LocalMachine.handleFilterDisplaySize (lm : LocalMachine) (value : Int) : Int :=
  match lm.cachedSizes with
  | none => value
  | some sizes =>
    if sizes = [] then value
    else
      match ((sizes ++ [value]).filter (fun i => 0 < i)).min? with
      | none => value
      | some m => m

/-- LocalMachine.handleDecideEnabled. -/
def LocalMachine.handleDecideEnabled (lm : LocalMachine) : Bool :=
  !lm.receivingBraille

/-- LocalMachine.sendKey: injects the key event, with no mute check. -/
def LocalMachine.sendKey (_lm : LocalMachine) (vk : Option Int) (extended : Option Bool)
    (pressed : Option Bool) : List LocalEffect :=
  [.sendKeyInput vk extended pressed]

/-- LocalMachine.setClipboardText: plays the cue and sets the clipboard, with
no mute check. -/
def LocalMachine.setClipboardText (_lm : LocalMachine) (text : String) : List LocalEffect :=
  [.clipboardCue, .copyToClip text]

/-- LocalMachine.sendSAS: triggers the secure attention sequence when UI
Access is held, else reports the failure locally; no mute check. -/
def LocalMachine.sendSAS (_lm : LocalMachine) (hasUiAccess : Bool) : List LocalEffect :=
  if hasUiAccess then [.sendSASCall]
  else [.uiMessage "No permission on device to trigger CTRL+ALT+DEL from remote"]

/-- Deserializer used by the concrete scenarios below: a handful of one-line
wire messages, every other line being unparsable. -/
def dEx : Deser := fun l =>
  if l = [75] then some [("type", JVal.str "KEY")]
  else if l = [74] then some [("type", JVal.str "join"), ("channel", JVal.str "abc123"),
    ("connection_type", JVal.str "leader")]
  else if l = [66] then some [("type", JVal.str "join"), ("channel", JVal.str "wrong")]
  else if l = [5] then some [("type", JVal.num 5)]
  else if l = [78] then some [("a", JVal.num 1)]
  else if l = [79] then some [("b", JVal.num 2)]
  else if l = [7, 8] then some [("a", JVal.num 1)]
  else if l = [80] then some [("type", JVal.str "protocol_version"),
    ("version", JVal.str "x")]
  else none

/-- Authenticated client 1 with the default protocol version. -/
def cA1 : ClientState := ⟨1, [], true, JVal.null, JVal.num 1⟩

/-- Authenticated client 2 with the default protocol version. -/
def cA2 : ClientState := ⟨2, [], true, JVal.null, JVal.num 1⟩

/-- Unauthenticated client 1 with the default protocol version. -/
def cU1 : ClientState := ⟨1, [], false, JVal.null, JVal.num 1⟩

/-- Server with two authenticated version-1 clients. -/
def S0cex : ServerState := ⟨"abc123", [cA1, cA2], [1, 2]⟩

/-- Server where client 1 has not yet authenticated and client 2 has. -/
def S0b : ServerState := ⟨"abc123", [cU1, cA2], [1, 2]⟩

/-- Version gate of Client.send as a Boolean on stored version values; on
integer versions it coincides with the Python comparison. -/
def gtOneB : JVal → Bool
  | .num n => decide (1 < n)
  | _ => false

/-- Well-typedness of the stored protocol versions: every client object
holds an integer version, as is the case for every state reachable without a
non-integer truthy protocol_version declaration. -/
def versionsOk (S : ServerState) : Prop :=
  ∀ c ∈ S.store, c.protocolVersion.isNum = true

lemma pyVersionGtOne_of_isNum {v : JVal} (h : v.isNum = true) :
    pyVersionGtOne v = .ok (gtOneB v) := by
  cases v <;> simp_all [JVal.isNum, pyVersionGtOne, gtOneB]

lemma client?_id {S : ServerState} {i : Int} {c : ClientState}
    (h : S.client? i = some c) : c.id = i := by
  have := List.find?_some h
  simpa using this

lemma mem_store_of_client? {S : ServerState} {i : Int} {c : ClientState}
    (h : S.client? i = some c) : c ∈ S.store :=
  List.mem_of_find?_eq_some h

lemma mem_store_of_mem_tableClients {S : ServerState} {c : ClientState}
    (h : c ∈ S.tableClients) : c ∈ S.store := by
  rcases List.mem_filterMap.mp h with ⟨i, _, hfi⟩
  exact mem_store_of_client? hfi

lemma find?_id_map_updateFn (i j : Int) (f : ClientState → ClientState)
    (hf : ∀ c, (f c).id = c.id) (l : List ClientState) :
    (l.map (fun c => if c.id = i then f c else c)).find? (fun c => c.id = j) =
      (l.find? (fun c => c.id = j)).map (fun c => if c.id = i then f c else c) := by
  have hg : ∀ c : ClientState, (if c.id = i then f c else c).id = c.id := by
    intro c
    by_cases hc : c.id = i <;> simp [hc, hf]
  induction l with
  | nil => rfl
  | cons c rest ih =>
    by_cases hcj : c.id = j
    · rw [List.map_cons, List.find?_cons_of_pos _ (by simpa [hg] using hcj),
        List.find?_cons_of_pos _ (by simpa using hcj)]
      rfl
    · rw [List.map_cons, List.find?_cons_of_neg _ (by simpa [hg] using hcj),
        List.find?_cons_of_neg _ (by simpa using hcj), ih]

lemma client?_updateClient (S : ServerState) (i j : Int) (f : ClientState → ClientState)
    (hf : ∀ c, (f c).id = c.id) :
    (S.updateClient i f).client? j =
      (S.client? j).map (fun c => if c.id = i then f c else c) :=
  find?_id_map_updateFn i j f hf S.store

lemma tableClients_updateClient (S : ServerState) (i : Int) (f : ClientState → ClientState)
    (hf : ∀ c, (f c).id = c.id) :
    (S.updateClient i f).tableClients =
      S.tableClients.map (fun c => if c.id = i then f c else c) := by
  have htab : (S.updateClient i f).table = S.table := rfl
  rw [ServerState.tableClients, ServerState.tableClients, htab, List.map_filterMap]
  refine List.filterMap_congr (fun j _ => ?_)
  exact client?_updateClient S i j f hf

lemma filter_others_map_updateFn (i : Int) (f : ClientState → ClientState)
    (hf : ∀ c, (f c).id = c.id) (l : List ClientState) :
    ((l.map (fun c => if c.id = i then f c else c)).filter (isOther i)) =
      l.filter (isOther i) := by
  induction l with
  | nil => rfl
  | cons c rest ih =>
    by_cases hci : c.id = i
    · have h1 : isOther i (if c.id = i then f c else c) = false := by
        simp [isOther, hci, hf]
      have h2 : isOther i c = false := by simp [isOther, hci]
      simp [List.filter_cons, h1, h2, ih]
    · have hcc : (if c.id = i then f c else c) = c := by simp [hci]
      simp only [List.map_cons, List.filter_cons, hcc, ih]

lemma filter_others_updateClient (S : ServerState) (i : Int) (f : ClientState → ClientState)
    (hf : ∀ c, (f c).id = c.id) :
    ((S.updateClient i f).tableClients.filter (isOther i)) =
      S.tableClients.filter (isOther i) := by
  rw [tableClients_updateClient S i f hf]
  exact filter_others_map_updateFn i f hf S.tableClients

lemma versionsOk_updateClient {S : ServerState} (hS : versionsOk S) (i : Int)
    (f : ClientState → ClientState) (hf : ∀ c, (f c).protocolVersion = c.protocolVersion) :
    versionsOk (S.updateClient i f) := by
  intro c hc
  rcases List.mem_map.mp hc with ⟨c0, hc0, heq⟩
  by_cases h : c0.id = i
  · subst heq; simpa [h, hf] using hS c0 hc0
  · subst heq; simpa [h] using hS c0 hc0

lemma sendLoop_eq (myId : Int) (ov tyv : JVal) (ca cl : Option JVal) (kw : Message)
    (l : List ClientState) (h : ∀ c ∈ l, c.protocolVersion.isNum = true) :
    sendLoop myId ov tyv ca cl kw l = .ok ((l.filter (isOther myId)).map (fun c =>
      { dest := c.id
        msg := ("type", tyv) :: (kw
          ++ (if gtOneB c.protocolVersion && truthy ov then [("origin", ov)] else [])
          ++ (if gtOneB c.protocolVersion && truthyOpt ca then
                [("clients", ca.getD JVal.null)] else [])
          ++ (if gtOneB c.protocolVersion && truthyOpt cl then
                [("client", cl.getD JVal.null)] else [])) })) := by
  induction l with
  | nil => rfl
  | cons c rest ih =>
    have hc := h c (List.mem_cons_self c rest)
    have hrest : ∀ c ∈ rest, c.protocolVersion.isNum = true :=
      fun c hcr => h c (List.mem_cons_of_mem _ hcr)
    by_cases ho : isOther myId c = true
    · simp [sendLoop, ho, clientSend, pyVersionGtOne_of_isNum hc, ih hrest,
        List.filter_cons, truthyOpt]
    · simp [sendLoop, ho, ih hrest, List.filter_cons]

lemma splitNewlines_append_nl {l : List Nat} (h : (10 : Nat) ∉ l) (rest : List Nat) :
    splitNewlines (l ++ 10 :: rest) =
      ((l :: (splitNewlines rest).1), (splitNewlines rest).2) := by
  induction l with
  | nil => simp [splitNewlines]
  | cons b t ih =>
    have hb : ¬ b = 10 := by
      intro hh; exact h (by simp [hh])
    have ht : (10 : Nat) ∉ t := fun hh => h (List.mem_cons_of_mem _ hh)
    simp [splitNewlines, hb, ih ht]

lemma sendToOthers_eq (S : ServerState) (myId : Int) (origin : Option JVal) (payload : Message)
    (tyv : JVal) (hty : msgGet payload "type" = some tyv)
    (hvers : ∀ c ∈ S.tableClients, c.protocolVersion.isNum = true) :
    sendToOthers S myId origin payload =
      .ok ((S.tableClients.filter (isOther myId)).map (fun c =>
        { dest := c.id
          msg := ("type", tyv) :: (msgErase (msgErase (msgErase payload "type") "clients") "client"
            ++ (if gtOneB c.protocolVersion && truthy (originOrId origin myId) then
                  [("origin", originOrId origin myId)] else [])
            ++ (if gtOneB c.protocolVersion && truthyOpt (msgGet payload "clients") then
                  [("clients", (msgGet payload "clients").getD JVal.null)] else [])
            ++ (if gtOneB c.protocolVersion && truthyOpt (msgGet payload "client") then
                  [("client", (msgGet payload "client").getD JVal.null)] else [])) })) := by
  simp only [sendToOthers, hty]
  rw [sendLoop_eq myId (originOrId origin myId) tyv (msgGet payload "clients")
    (msgGet payload "client")
    (msgErase (msgErase (msgErase payload "type") "clients") "client") S.tableClients hvers]

lemma closeClient_unauth {S : ServerState} {myId : Int} {me : ClientState}
    (hmem : myId ∈ S.table) (hme : S.client? myId = some me)
    (hauth : me.authenticated = false) :
    closeClient S myId = .ok ({ S with table := S.table.filter (fun i => i ≠ myId) }, []) := by
  simp [closeClient, hmem, hme, hauth]

lemma versions_tableClients {S : ServerState} (h : versionsOk S) :
    ∀ c ∈ S.tableClients, c.protocolVersion.isNum = true :=
  fun c hc => h c (mem_store_of_mem_tableClients hc)

lemma authClients_filter_table {S : ServerState} {myId : Int} {me : ClientState}
    (hme : S.client? myId = some me) (hauth : me.authenticated = false) :
    ((S.table.filter (fun i => i ≠ myId)).filterMap S.client?).filter
        (fun c => c.authenticated) =
      (S.table.filterMap S.client?).filter (fun c => c.authenticated) := by
  simp only [ne_eq, decide_not]
  induction S.table with
  | nil => rfl
  | cons i t ih =>
    by_cases hx : i = myId
    · subst hx
      have h1 : List.filter (fun j => !decide (j = i)) (i :: t) =
          List.filter (fun j => !decide (j = i)) t := by
        simp [List.filter_cons]
      rw [h1, ih]
      simp [List.filterMap_cons, hme, List.filter_cons, hauth]
    · have h1 : List.filter (fun j => !decide (j = myId)) (i :: t) =
          i :: List.filter (fun j => !decide (j = myId)) t := by
        simp [List.filter_cons, hx]
      rw [h1]
      cases hc : S.client? i with
      | none => simp [List.filterMap_cons, hc, ih]
      | some c => simp [List.filterMap_cons, hc, List.filter_cons, ih]

/-- C10: a line that deserializes to a JSON object with no top-level type
field is silently discarded for every client, authenticated or not: parse
returns with the server state unchanged and nothing sent, so no handler runs,
nothing is forwarded, the connection stays open and the client state is
untouched. -/
theorem claimC10_no_type_discarded (d : Deser) (S : ServerState) (myId : Int)
    (line : List Nat) (m : Message)
    (hd : d line = some m) (hty : msgGet m "type" = none) :
    parse d S myId line = .ok (S, []) := by
  simp [parse, hd, hty]

/-- Witness for C10 at a concrete line, once for an unauthenticated client
and once for an authenticated one. -/
theorem claimC10_witness :
    parse dEx S0b 1 [78] = .ok (S0b, []) ∧ parse dEx S0cex 1 [78] = .ok (S0cex, []) := by
  constructor
  · exact claimC10_no_type_discarded dEx S0b 1 [78] [("a", JVal.num 1)] rfl rfl
  · exact claimC10_no_type_discarded dEx S0cex 1 [78] [("a", JVal.num 1)] rfl rfl

/-- C8: LocalMachine.display writes exactly when braille is being received,
the local display size is positive and the pushed cell count fits; a fitting
push is zero-padded up to the display size, an over-long push is dropped
entirely, and nothing is written when not receiving or when the size is not
positive. -/
theorem claimC8_display_gating (lm : LocalMachine) (ds : Int) (cells : List Int) :
    (lm.receivingBraille = true → 0 < ds → (cells.length : Int) ≤ ds →
      lm.display ds cells =
        some (cells ++ List.replicate (ds - (cells.length : Int)).toNat 0) ∧
      ∀ w, lm.display ds cells = some w → (w.length : Int) = ds)
  ∧ (ds < (cells.length : Int) → lm.display ds cells = none)
  ∧ (lm.receivingBraille = false → lm.display ds cells = none)
  ∧ (ds ≤ 0 → lm.display ds cells = none)
  ∧ (∀ w, lm.display ds cells = some w →
      lm.receivingBraille = true ∧ 0 < ds ∧ (cells.length : Int) ≤ ds) := by
  refine ⟨?_, ?_, ?_, ?_, ?_⟩
  · intro h1 h2 h3
    constructor
    · simp [LocalMachine.display, h1, h2, h3]
    · intro w hw
      simp [LocalMachine.display, h1, h2, h3] at hw
      subst hw
      simp only [List.length_append, List.length_replicate]
      omega
  · intro h
    simp only [LocalMachine.display]
    rw [if_neg]
    intro hcond
    omega
  · intro h
    simp [LocalMachine.display, h]
  · intro h
    simp only [LocalMachine.display]
    rw [if_neg]
    intro hcond
    omega
  · intro w hw
    by_cases hcond : lm.receivingBraille = true ∧ 0 < ds ∧ (cells.length : Int) ≤ ds
    · exact hcond
    · rw [LocalMachine.display, if_neg] at hw
      · cases hw
      · intro hc
        exact hcond ⟨by simp [hc.1], hc.2.1, hc.2.2⟩

/-- Witness for C8: a two-cell push on a four-cell display is padded with two
zero cells, and a two-cell push on a one-cell display is dropped. -/
theorem claimC8_witness :
    LocalMachine.display ⟨false, true, none⟩ 4 [1, 2] = some [1, 2, 0, 0] ∧
    LocalMachine.display ⟨false, true, none⟩ 1 [1, 2] = none := by
  constructor
  · have h := ((claimC8_display_gating ⟨false, true, none⟩ 4 [1, 2]).1 rfl (by decide)
      (by decide)).1
    simpa using h
  · exact (claimC8_display_gating ⟨false, true, none⟩ 1 [1, 2]).2.1 (by decide)

/-- Counterexample to C9 as stated: with the mute flag set, sendKey still
injects the key event into the local system, so not every remote command is
ignored while muted. -/
theorem claimC9_counterexample :
    (⟨true, false, none⟩ : LocalMachine).isMuted = true ∧
    LocalMachine.sendKey ⟨true, false, none⟩ (some 65) (some false) (some true) =
      [.sendKeyInput (some 65) (some false) (some true)] ∧
    LocalMachine.sendKey ⟨true, false, none⟩ (some 65) (some false) (some true) ≠ [] := by
  refine ⟨rfl, rfl, by decide⟩

/-- C9 amended: while muted, the speech and sound commands (speak,
cancelSpeech, pauseSpeech, beep, playWave) have no local effect, but key
injection, clipboard transfer, the secure attention sequence and braille
input run regardless of the mute flag. -/
theorem claimC9_amended (lm : LocalMachine) (hm : lm.isMuted = true) :
    (∀ seq pri, lm.speak seq pri = [])
  ∧ (∀ hz len left right, lm.beep hz len left right = [])
  ∧ (∀ fn fe, lm.playWave fn fe = [])
  ∧ lm.cancelSpeech = []
  ∧ (∀ sw, lm.pauseSpeech sw = [])
  ∧ (∀ vk e p, lm.sendKey vk e p = [.sendKeyInput vk e p])
  ∧ (∀ t, lm.setClipboardText t = [.clipboardCue, .copyToClip t])
  ∧ lm.sendSAS true = [.sendSASCall]
  ∧ lm.brailleInput = [.executeBrailleGesture] := by
  refine ⟨?_, ?_, ?_, ?_, ?_, ?_, ?_, ?_, ?_⟩ <;>
    simp [LocalMachine.speak, LocalMachine.beep, LocalMachine.playWave,
      LocalMachine.cancelSpeech, LocalMachine.pauseSpeech, LocalMachine.sendKey,
      LocalMachine.setClipboardText, LocalMachine.sendSAS, LocalMachine.brailleInput, hm]

/-- Witness for the amended C9 at a concrete muted machine. -/
theorem claimC9_witness :
    LocalMachine.speak ⟨true, false, none⟩ ["hello"] 0 = [] ∧
    LocalMachine.setClipboardText ⟨true, false, none⟩ "x" =
      [.clipboardCue, .copyToClip "x"] := by
  constructor
  · exact (claimC9_amended ⟨true, false, none⟩ rfl).1 ["hello"] 0
  · exact (claimC9_amended ⟨true, false, none⟩ rfl).2.2.2.2.2.2.1 "x"

/-- C7: ensureValidCertExists regenerates when a file is missing or when
validation raises, never propagates a validation exception (it returns
normally in every case, flagging regeneration instead), and a second call
within the renewal horizon of a fresh generation performs no further
generation and leaves the files untouched. -/
theorem claimC7_cert_lifecycle (fs : CertFiles) (now now2 : Int) :
    (filesExist fs = false → ensureValidCertExists fs now = (generateSelfSignedCert now, true))
  ∧ (∀ e, validateCertificate fs now = .error e →
      ensureValidCertExists fs now = (generateSelfSignedCert now, true))
  ∧ (now ≤ now2 → now2 < now + CERT_DURATION_DAYS - CERT_RENEWAL_THRESHOLD_DAYS →
      ensureValidCertExists (generateSelfSignedCert now) now2 = (generateSelfSignedCert now, false))
  ∧ (fs.cert = none → (ensureValidCertExists fs now).2 = true)
  ∧ (fs.key = none → (ensureValidCertExists fs now).2 = true) := by
  refine ⟨?_, ?_, ?_, ?_, ?_⟩
  · intro h
    simp [ensureValidCertExists, h]
  · intro e he
    by_cases hf : filesExist fs = false
    · simp [ensureValidCertExists, hf]
    · simp [ensureValidCertExists, hf, he]
  · intro h1 h2
    have hval : validateCertificate (generateSelfSignedCert now) now2 = .ok () := by
      simp only [CERT_DURATION_DAYS, CERT_RENEWAL_THRESHOLD_DAYS] at h2
      simp only [validateCertificate, generateSelfSignedCert, CERT_DURATION_DAYS,
        CERT_RENEWAL_THRESHOLD_DAYS]
      rw [if_neg (by simp), if_neg (by omega), if_neg (by omega)]
      simp
    have hfe : filesExist (generateSelfSignedCert now) = true := rfl
    simp [ensureValidCertExists, hfe, hval]
  · intro h
    simp [ensureValidCertExists, filesExist, h]
  · intro h
    simp [ensureValidCertExists, filesExist, h]

/-- Witness for C7: starting with no files, the first call generates, and a
second call 100 days later does not generate and changes nothing. -/
theorem claimC7_witness :
    ensureValidCertExists ⟨none, none⟩ 0 = (generateSelfSignedCert 0, true) ∧
    ensureValidCertExists (generateSelfSignedCert 0) 100 = (generateSelfSignedCert 0, false) := by
  constructor
  · exact (claimC7_cert_lifecycle ⟨none, none⟩ 0 100).1 rfl
  · exact (claimC7_cert_lifecycle ⟨none, none⟩ 0 100).2.2.1 (by decide) (by decide)

/-- C6 is a code bug: the ping sweep in LocalRelayServer.run evaluates
RemoteMessageType.PINGping, an attribute the message-type enum does not have
(the spec and the enum name the keepalive PING), so once PING_TIME has
elapsed and an authenticated client exists the sweep raises AttributeError
inside the run loop instead of sending PING. -/
theorem claimC6_ping_code_bug :
    PING_TIME ≤ 400 - 0
  ∧ S0cex.tableClients = [cA1, cA2]
  ∧ cA1.authenticated = true ∧ cA2.authenticated = true
  ∧ pingTick S0cex 400 0 = .error .attributeError
  ∧ RemoteMessageType.attr? "PINGping" = none
  ∧ RemoteMessageType.attr? "PING" = some RemoteMessageType.PING := by
  refine ⟨by decide, rfl, rfl, rfl, rfl, rfl, rfl⟩

/-- C3: a join carrying a wrong channel password from a not-yet-authenticated
client yields exactly one ERROR message to that client, the connection is
closed (the client leaves the table), the client store is untouched, the set
of authenticated clients is unchanged, and no CLIENT_LEFT is broadcast (the
single ERROR send is all that is emitted). -/
theorem claimC3_bad_password (d : Deser) (S : ServerState) (myId : Int) (me : ClientState)
    (line : List Nat) (m : Message)
    (hme : S.client? myId = some me)
    (hauth : me.authenticated = false)
    (hmem : myId ∈ S.table)
    (hnum : me.protocolVersion.isNum = true)
    (hd : d line = some m)
    (hty : msgGet m "type" = some (JVal.str "join"))
    (hpwd : pyEqStr (msgGet m "channel") S.password = false) :
    parse d S myId line = .ok ({ S with table := S.table.filter (fun i => i ≠ myId) },
      [{ dest := myId, msg := [("type", JVal.str RemoteMessageType.ERROR.wire),
        ("message", JVal.str "incorrect_password")] }])
  ∧ ({ S with table := S.table.filter (fun i => i ≠ myId) } : ServerState).store = S.store
  ∧ ({ S with table := S.table.filter (fun i => i ≠ myId) } :
        ServerState).tableClients.filter (fun c => c.authenticated) =
      S.tableClients.filter (fun c => c.authenticated) := by
  refine ⟨?_, rfl, ?_⟩
  · have hid : me.id = myId := client?_id hme
    have hsend : clientSend me (JVal.str RemoteMessageType.ERROR.wire) none none none
        [("message", JVal.str "incorrect_password")] =
        .ok { dest := me.id, msg := [("type", JVal.str RemoteMessageType.ERROR.wire),
          ("message", JVal.str "incorrect_password")] } := by
      simp [clientSend, pyVersionGtOne_of_isNum hnum, truthyOpt]
    simp [parse, hd, hty, hme, hauth, do_join, hpwd, hsend,
      closeClient_unauth hmem hme hauth, hid]
  · exact authClients_filter_table hme hauth

/-- Witness for C3: the wrong-password join of client 1 in the concrete
scenario, applied through the theorem. -/
theorem claimC3_witness :
    parse dEx S0b 1 [66] = .ok ({ S0b with table := S0b.table.filter (fun i => i ≠ 1) },
      [{ dest := 1, msg := [("type", JVal.str RemoteMessageType.ERROR.wire),
        ("message", JVal.str "incorrect_password")] }]) := by
  exact (claimC3_bad_password dEx S0b 1 cU1 [66]
    [("type", JVal.str "join"), ("channel", JVal.str "wrong")]
    rfl rfl (by decide) rfl rfl rfl rfl).1

lemma parse_join_ok (d : Deser) (S : ServerState) (myId : Int) (me : ClientState)
    (line : List Nat) (m : Message) (vme : Int)
    (hme : S.client? myId = some me)
    (hauth : me.authenticated = false)
    (hd : d line = some m)
    (hty : msgGet m "type" = some (JVal.str "join"))
    (hpwd : pyEqStr (msgGet m "channel") S.password = true)
    (hvme : me.protocolVersion = JVal.num vme)
    (hvers : versionsOk S)
    (hid0 : myId ≠ 0) :
    parse d S myId line = .ok
      (S.updateClient myId (fun c => { c with
          connectionType := (msgGet m "connection_type").getD JVal.null
          authenticated := true }),
       { dest := myId
         msg := ("type", JVal.str RemoteMessageType.CHANNEL_JOINED.wire) ::
           ([("channel", JVal.str S.password),
             ("user_ids", JVal.arr ((S.tableClients.filter (isOther myId)).map
                (fun c => JVal.num c.id)))]
            ++ (if decide (1 < vme) &&
                  !((S.tableClients.filter (isOther myId)).map ClientState.asDict).isEmpty then
                  [("clients", JVal.arr ((S.tableClients.filter (isOther myId)).map
                     ClientState.asDict))] else [])) } ::
       (S.tableClients.filter (isOther myId)).map (fun c =>
         { dest := c.id
           msg := ("type", JVal.str RemoteMessageType.CLIENT_JOINED.wire) ::
             ([("user_id", JVal.num myId)]
              ++ (if gtOneB c.protocolVersion then [("origin", JVal.num myId)] else [])
              ++ (if gtOneB c.protocolVersion then
                    [("client", JVal.obj [("id", JVal.num myId),
                       ("connection_type", (msgGet m "connection_type").getD JVal.null)])]
                  else [])) }))
  ∧ (S.updateClient myId (fun c => { c with
        connectionType := (msgGet m "connection_type").getD JVal.null
        authenticated := true })).client? myId =
      some { me with connectionType := (msgGet m "connection_type").getD JVal.null, authenticated := true } := by
  have hid : me.id = myId := client?_id hme
  have hf : ∀ c : ClientState,
      ((fun c : ClientState => { c with connectionType := (msgGet m "connection_type").getD JVal.null, authenticated := true }) c).id = c.id := fun c => rfl
  have hme1 : (S.updateClient myId (fun c => { c with
      connectionType := (msgGet m "connection_type").getD JVal.null
      authenticated := true })).client? myId =
      some { me with connectionType := (msgGet m "connection_type").getD JVal.null, authenticated := true } := by
    rw [client?_updateClient S myId myId _ hf, hme]
    simp [hid]
  refine ⟨?_, hme1⟩
  have hroster := filter_others_updateClient S myId
    (fun c => { c with connectionType := (msgGet m "connection_type").getD JVal.null, authenticated := true }) hf
  have hvers1 : versionsOk (S.updateClient myId (fun c => { c with
      connectionType := (msgGet m "connection_type").getD JVal.null
      authenticated := true })) :=
    versionsOk_updateClient hvers myId _ (fun c => rfl)
  have hsend1 : clientSend { me with
        connectionType := (msgGet m "connection_type").getD JVal.null
        authenticated := true }
      (JVal.str RemoteMessageType.CHANNEL_JOINED.wire) none
      (some (JVal.arr (((S.updateClient myId (fun c => { c with
          connectionType := (msgGet m "connection_type").getD JVal.null
          authenticated := true })).tableClients.filter (isOther myId)).map
          ClientState.asDict))) none
      [("channel", JVal.str S.password),
       ("user_ids", JVal.arr (((S.updateClient myId (fun c => { c with
          connectionType := (msgGet m "connection_type").getD JVal.null
          authenticated := true })).tableClients.filter (isOther myId)).map
          (fun c => JVal.num c.id)))] =
      .ok { dest := myId
            msg := ("type", JVal.str RemoteMessageType.CHANNEL_JOINED.wire) ::
              ([("channel", JVal.str S.password),
                ("user_ids", JVal.arr ((S.tableClients.filter (isOther myId)).map
                   (fun c => JVal.num c.id)))]
               ++ (if decide (1 < vme) &&
                     !((S.tableClients.filter (isOther myId)).map
                        ClientState.asDict).isEmpty then
                     [("clients", JVal.arr ((S.tableClients.filter (isOther myId)).map
                        ClientState.asDict))] else [])) } := by
    simp [clientSend, hvme, pyVersionGtOne, hroster, truthyOpt, truthy, hid]
  have hty2 : msgGet [("type", JVal.str RemoteMessageType.CLIENT_JOINED.wire),
      ("user_id", JVal.num myId),
      ("client", ClientState.asDict { me with
         connectionType := (msgGet m "connection_type").getD JVal.null
         authenticated := true })] "type" =
      some (JVal.str RemoteMessageType.CLIENT_JOINED.wire) := by
    simp [msgGet]
  have hsend2 := sendToOthers_eq (S.updateClient myId (fun c => { c with
      connectionType := (msgGet m "connection_type").getD JVal.null
      authenticated := true })) myId none
    [("type", JVal.str RemoteMessageType.CLIENT_JOINED.wire),
     ("user_id", JVal.num myId),
     ("client", ClientState.asDict { me with
        connectionType := (msgGet m "connection_type").getD JVal.null
        authenticated := true })]
    (JVal.str RemoteMessageType.CLIENT_JOINED.wire) hty2
    (versions_tableClients hvers1)
  rw [hroster] at hsend2
  simp only [parse, hd, hty, hme, hauth]
  simp only [do_join, hme, hpwd, Bool.true_eq_false, if_false, hsend1, hsend2]
  simp [msgGet, msgErase, ClientState.asDict, hid, truthyOpt, truthy, originOrId, hid0]


/-- C2 amended: a join with the correct channel password from a
not-yet-authenticated client marks it authenticated and records its
connection type; the joiner receives exactly one CHANNEL_JOINED whose
user_ids field lists exactly the ids of the other currently-authenticated
clients (in table order, excluding the joiner and all unauthenticated
clients); the clients metadata list is included in it only when the joiner
declared a protocol version above 1 and the roster is non-empty; and every
other authenticated client receives one CLIENT_JOINED with the joiner's id,
which carries the joiner's metadata (and origin) only for recipients whose
protocol version exceeds 1. -/
theorem claimC2_amended (d : Deser) (S : ServerState) (myId : Int) (me : ClientState)
    (line : List Nat) (m : Message) (vme : Int)
    (hme : S.client? myId = some me)
    (hauth : me.authenticated = false)
    (hd : d line = some m)
    (hty : msgGet m "type" = some (JVal.str "join"))
    (hpwd : pyEqStr (msgGet m "channel") S.password = true)
    (hvme : me.protocolVersion = JVal.num vme)
    (hvers : versionsOk S)
    (hid0 : myId ≠ 0) :
    parse d S myId line = .ok
      (S.updateClient myId (fun c => { c with
          connectionType := (msgGet m "connection_type").getD JVal.null
          authenticated := true }),
       { dest := myId
         msg := ("type", JVal.str RemoteMessageType.CHANNEL_JOINED.wire) ::
           ([("channel", JVal.str S.password),
             ("user_ids", JVal.arr ((S.tableClients.filter (isOther myId)).map
                (fun c => JVal.num c.id)))]
            ++ (if decide (1 < vme) &&
                  !((S.tableClients.filter (isOther myId)).map ClientState.asDict).isEmpty then
                  [("clients", JVal.arr ((S.tableClients.filter (isOther myId)).map
                     ClientState.asDict))] else [])) } ::
       (S.tableClients.filter (isOther myId)).map (fun c =>
         { dest := c.id
           msg := ("type", JVal.str RemoteMessageType.CLIENT_JOINED.wire) ::
             ([("user_id", JVal.num myId)]
              ++ (if gtOneB c.protocolVersion then [("origin", JVal.num myId)] else [])
              ++ (if gtOneB c.protocolVersion then
                    [("client", JVal.obj [("id", JVal.num myId),
                       ("connection_type", (msgGet m "connection_type").getD JVal.null)])]
                  else [])) }))
  ∧ (S.updateClient myId (fun c => { c with
        connectionType := (msgGet m "connection_type").getD JVal.null
        authenticated := true })).client? myId =
      some { me with connectionType := (msgGet m "connection_type").getD JVal.null, authenticated := true } := 
  parse_join_ok d S myId me line m vme hme hauth hd hty hpwd hvme hvers hid0

/-- Counterexample to C2 as stated: a joiner with the default protocol
version 1 receives a CHANNEL_JOINED that carries the other clients' ids in
user_ids but no clients metadata list at all, and the version-1 other client
receives a CLIENT_JOINED with the joiner's id but without the joiner's
metadata. -/
theorem claimC2_counterexample :
    cU1.protocolVersion = JVal.num 1 ∧ cU1.authenticated = false ∧
    cA2.authenticated = true ∧
    parse dEx S0b 1 [74] = .ok
      (⟨"abc123", [⟨1, [], true, JVal.str "leader", JVal.num 1⟩, cA2], [1, 2]⟩,
       [⟨1, [("type", JVal.str "CHANNEL_JOINED"), ("channel", JVal.str "abc123"),
             ("user_ids", JVal.arr [JVal.num 2])]⟩,
        ⟨2, [("type", JVal.str "CLIENT_JOINED"), ("user_id", JVal.num 1)]⟩]) ∧
    msgGet [("type", JVal.str "CHANNEL_JOINED"), ("channel", JVal.str "abc123"),
      ("user_ids", JVal.arr [JVal.num 2])] "clients" = none ∧
    msgGet [("type", JVal.str "CLIENT_JOINED"), ("user_id", JVal.num 1)] "client" = none :=
  ⟨rfl, rfl, rfl, rfl, rfl, rfl⟩

/-- Witness for the amended C2: client 1 joins with the correct password in
the concrete two-client scenario, through the theorem. -/
theorem claimC2_witness :
    parse dEx S0b 1 [74] = .ok
      (S0b.updateClient 1 (fun c => { c with
          connectionType := (msgGet [("type", JVal.str "join"), ("channel", JVal.str "abc123"),
            ("connection_type", JVal.str "leader")] "connection_type").getD JVal.null
          authenticated := true }),
       { dest := 1
         msg := ("type", JVal.str RemoteMessageType.CHANNEL_JOINED.wire) ::
           ([("channel", JVal.str S0b.password),
             ("user_ids", JVal.arr ((S0b.tableClients.filter (isOther 1)).map
                (fun c => JVal.num c.id)))]
            ++ (if decide ((1 : Int) < 1) &&
                  !((S0b.tableClients.filter (isOther 1)).map ClientState.asDict).isEmpty then
                  [("clients", JVal.arr ((S0b.tableClients.filter (isOther 1)).map
                     ClientState.asDict))] else [])) } ::
       (S0b.tableClients.filter (isOther 1)).map (fun c =>
         { dest := c.id
           msg := ("type", JVal.str RemoteMessageType.CLIENT_JOINED.wire) ::
             ([("user_id", JVal.num 1)]
              ++ (if gtOneB c.protocolVersion then [("origin", JVal.num 1)] else [])
              ++ (if gtOneB c.protocolVersion then
                    [("client", JVal.obj [("id", JVal.num 1),
                       ("connection_type", (msgGet [("type", JVal.str "join"),
                         ("channel", JVal.str "abc123"),
                         ("connection_type", JVal.str "leader")]
                         "connection_type").getD JVal.null)])]
                  else [])) })) :=
  (claimC2_amended dEx S0b 1 cU1 [74]
    [("type", JVal.str "join"), ("channel", JVal.str "abc123"),
     ("connection_type", JVal.str "leader")] 1
    rfl rfl rfl rfl rfl rfl (by unfold versionsOk; decide) (by decide)).1

lemma client?_update_self {S : ServerState} {myId : Int} {me : ClientState}
    (f : ClientState → ClientState) (hme : S.client? myId = some me)
    (hf : ∀ c, (f c).id = c.id) :
    (S.updateClient myId f).client? myId = some (f me) := by
  rw [client?_updateClient S myId myId f hf, hme]
  simp [client?_id hme]

lemma updateClient_updateClient (S : ServerState) (i : Int)
    (f g : ClientState → ClientState) (hf : ∀ c, (f c).id = c.id) :
    (S.updateClient i f).updateClient i g = S.updateClient i (fun c => g (f c)) := by
  simp only [ServerState.updateClient, List.map_map]
  congr 1
  refine List.map_congr_left (fun c _ => ?_)
  by_cases hc : c.id = i
  · simp [Function.comp, hc, hf]
  · simp [Function.comp, hc]

lemma updateClient_buffer_append_nil (S : ServerState) (i : Int) :
    S.updateClient i (fun c => { c with buffer := c.buffer ++ [] }) = S := by
  have h : (fun c : ClientState =>
      if c.id = i then { c with buffer := c.buffer ++ [] } else c) = fun c => c := by
    funext c
    by_cases hc : c.id = i
    · rw [if_pos hc, List.append_nil]
    · rw [if_neg hc]
  rw [ServerState.updateClient, h]
  simp

lemma updateClient_buffer_self (S : ServerState) (i : Int) :
    S.updateClient i (fun c => { c with buffer := c.buffer }) = S := by
  have h : (fun c : ClientState =>
      if c.id = i then { c with buffer := c.buffer } else c) = fun c => c := by
    funext c
    by_cases hc : c.id = i
    · rw [if_pos hc]
    · rw [if_neg hc]
  rw [ServerState.updateClient, h]
  simp

/-- C4: the per-client framer is strict newline framing.  With an empty
buffer, a read with no newline only extends the buffer and parses nothing; a
line split across two reads is reassembled and processed as exactly one
parsed message; two complete lines in a single read are processed as exactly
two parsed messages in arrival order with their outputs concatenated in
order and an empty trailing buffer; and a line that fails to parse closes
the connection immediately, with every later line of the same read left
unprocessed. -/
theorem claimC4_strict_framing (d : Deser) (S : ServerState) (myId : Int) (me : ClientState)
    (c1 c2 l1 l2 mal : List Nat)
    (hme : S.client? myId = some me)
    (hbuf : me.buffer = [])
    (hmem : myId ∈ S.table)
    (hauthF : me.authenticated = false)
    (hc1ne : c1 ≠ [])
    (h10c1 : (10 : Nat) ∉ c1) (h10c2 : (10 : Nat) ∉ c2)
    (h10l1 : (10 : Nat) ∉ l1) (h10l2 : (10 : Nat) ∉ l2)
    (h10mal : (10 : Nat) ∉ mal)
    (hm : d mal = none) :
    handleData d S myId (.data c1) =
      .ok (S.updateClient myId (fun c => { c with buffer := c1 }), [])
  ∧ (∀ Sp sent,
      parse d (S.updateClient myId (fun c => { c with buffer := [] })) myId (c1 ++ c2) =
        .ok (Sp, sent) →
      handleData d (S.updateClient myId (fun c => { c with buffer := c1 })) myId
        (.data (c2 ++ [10])) = .ok (Sp, sent))
  ∧ (∀ T1 s1 T2 s2,
      parse d (S.updateClient myId (fun c => { c with buffer := [] })) myId l1 =
        .ok (T1, s1) →
      parse d T1 myId l2 = .ok (T2, s2) →
      handleData d S myId (.data (l1 ++ 10 :: (l2 ++ [10]))) = .ok (T2, s1 ++ s2))
  ∧ (∀ junk : List Nat,
      handleData d S myId (.data (mal ++ 10 :: junk)) =
        .ok ({ S.updateClient myId (fun c => { c with buffer := [] }) with
               table := S.table.filter (fun i => i ≠ myId) }, [])) := by
  have hid : me.id = myId := client?_id hme
  refine ⟨?_, ?_, ?_, ?_⟩
  · simp [handleData, hc1ne, hme, hbuf, h10c1]
  · intro Sp sent hq
    have hme1 : (S.updateClient myId (fun c => { c with buffer := c1 })).client? myId =
        some { me with buffer := c1 } :=
      client?_update_self _ hme (fun c => rfl)
    have hcollapse : (S.updateClient myId (fun c => { c with buffer := c1 })).updateClient
        myId (fun c => { c with buffer := [] }) =
        S.updateClient myId (fun c => { c with buffer := [] }) := by
      rw [updateClient_updateClient S myId (fun c => { c with buffer := c1 })
        (fun c => { c with buffer := [] }) (fun c => rfl)]
    have hsplit : splitNewlines (c1 ++ (c2 ++ [10])) = ([c1 ++ c2], []) := by
      have hassoc : c1 ++ (c2 ++ [10]) = (c1 ++ c2) ++ 10 :: ([] : List Nat) := by simp
      rw [hassoc, splitNewlines_append_nl (by simp [h10c1, h10c2])]
      rfl
    rw [← hcollapse] at hq
    simp [handleData, hme1, hq, hsplit, processLines,
      updateClient_buffer_append_nil, updateClient_buffer_self]
  · intro T1 s1 T2 s2 hq1 hq2
    have hsplit : splitNewlines (l1 ++ 10 :: (l2 ++ [10])) = ([l1, l2], []) := by
      rw [splitNewlines_append_nl h10l1]
      have hassoc : l2 ++ [10] = l2 ++ 10 :: ([] : List Nat) := rfl
      rw [hassoc, splitNewlines_append_nl h10l2]
      rfl
    have hdata : me.buffer ++ (l1 ++ 10 :: (l2 ++ [10])) = l1 ++ 10 :: (l2 ++ [10]) := by
      simp [hbuf]
    simp [handleData, hme, hdata, hsplit, processLines, hq1, hq2,
      updateClient_buffer_append_nil, updateClient_buffer_self]
  · intro junk
    have hme0 : (S.updateClient myId (fun c => { c with buffer := [] })).client? myId =
        some { me with buffer := [] } :=
      client?_update_self _ hme (fun c => rfl)
    have hmem0 : myId ∈ (S.updateClient myId (fun c => { c with buffer := [] })).table := hmem
    have hclose := @closeClient_unauth (S.updateClient myId
        (fun c => { c with buffer := [] })) myId { me with buffer := [] }
      hmem0 hme0 (by simpa using hauthF)
    have hdata : me.buffer ++ (mal ++ 10 :: junk) = mal ++ 10 :: junk := by simp [hbuf]
    simp [handleData, hme, hdata, splitNewlines_append_nl h10mal, processLines,
      parse, hm, hclose]
    rfl

/-- Witness for C4 at concrete inputs: a buffered partial read, its completing
read (reassembled into one parsed message), two messages in one read, and a
malformed first line followed by a well-formed one that is never processed. -/
theorem claimC4_witness :
    handleData dEx S0b 1 (.data [7]) =
      .ok (S0b.updateClient 1 (fun c => { c with buffer := [7] }), []) ∧
    handleData dEx (S0b.updateClient 1 (fun c => { c with buffer := [7] })) 1
      (.data [8, 10]) =
      .ok (S0b.updateClient 1 (fun c => { c with buffer := [] }), []) ∧
    handleData dEx S0b 1 (.data ([78] ++ 10 :: ([79] ++ [10]))) =
      .ok (S0b.updateClient 1 (fun c => { c with buffer := [] }), []) ∧
    handleData dEx S0b 1 (.data ([9] ++ 10 :: [79, 10])) =
      .ok ({ S0b.updateClient 1 (fun c => { c with buffer := [] }) with
             table := S0b.table.filter (fun i => i ≠ 1) }, []) := by
  have h := claimC4_strict_framing dEx S0b 1 cU1 [7] [8] [78] [79] [9]
    rfl rfl (by decide) rfl (by decide) (by decide) (by decide) (by decide) (by decide)
    (by decide) rfl
  refine ⟨h.1, ?_, ?_, h.2.2.2 [79, 10]⟩
  · exact h.2.1 (S0b.updateClient 1 (fun c => { c with buffer := [] })) [] rfl
  · exact h.2.2.1 (S0b.updateClient 1 (fun c => { c with buffer := [] })) []
      (S0b.updateClient 1 (fun c => { c with buffer := [] })) [] rfl rfl

